import Mathlib

set_option autoImplicit false

/-!
Verification of the server-scrape orchestration engine of
`cvmfs-server-scraper-rust` (`src/models/servers.rs`).

The scraper's network effects are modelled by an `Env` record: each
HTTP fetch the Rust code performs (`fetch_repos_json`, `fetch_meta_json`,
per-repository status and manifest fetches) and the external semver parse
become fields of `Env`, so `Server.scrape` is a pure function of the
server descriptor, the supplied repository names and the environment.
-/

/-- Server roles: `Stratum0` (origin), `Stratum1` (mirror), `SyncServer`
(sync mirror), from `enum ServerType` in `servers.rs`. -/
inductive ServerType where
  | Stratum0
  | Stratum1
  | SyncServer
  deriving DecidableEq, Repr

/-- Backend kinds, from `enum ServerBackendType` in `servers.rs`. -/
inductive ServerBackendType where
  | S3
  | CVMFS
  | AutoDetect
  deriving DecidableEq, Repr

/-- Hostname newtype (`Hostname(pub String)` from `models/generic.rs`,
used in `servers.rs` as `self.hostname.0`). -/
structure Hostname where
  val : String
  deriving DecidableEq, Repr

/-- `MaybeRfc2822DateTime` wraps an optional date-time string
(`models/generic.rs`); the scraper moves it around opaquely. -/
abbrev MaybeRfc2822DateTime := Option String

/-- The server descriptor, from `struct Server` in `servers.rs`. -/
structure Server where
  server_type : ServerType
  backend_type : ServerBackendType
  hostname : Hostname
  deriving DecidableEq, Repr

/-- Scrape-stage errors. The constructors used by `servers.rs` are
`FetchError` (transport/HTTP failure from `fetch_json`),
`EmptyRepositoryList`, `ServerTypeMismatch` and `ConversionError`.
`ParseError` is modelled from the spec: a malformed-document decode
failure surfaced by `fetch_json` (the JSON decoder is outside
`servers.rs`). -/
inductive ScrapeError where
  | FetchError (msg : String)
  | ParseError (msg : String)
  | EmptyRepositoryList (host : String)
  | ServerTypeMismatch (msg : String)
  | ConversionError (msg : String)
  deriving DecidableEq, Repr

/-- Manifest errors. Modelled from the spec: the external manifest
decoder returns a manifest-format error, and the manifest fetch itself
can fail transport-wise. -/
inductive ManifestError where
  | FormatError (msg : String)
  | FetchError (msg : String)
  deriving DecidableEq, Repr

/-- The crate-wide error union from `errors.rs`, as used by
`servers.rs`: scrape errors and manifest errors are injected via
`From` (`error.into()`). -/
inductive CVMFSScraperError where
  | ScrapeError (e : ScrapeError)
  | ManifestError (e : ManifestError)
  deriving DecidableEq, Repr

/-- One repository-or-replica entry of the discovery document; the only
field `servers.rs` reads is `name`. -/
structure RepoEntry where
  name : String
  deriving DecidableEq, Repr

/-- The decoded discovery document (`models/repositories_json.rs`),
with the fields `servers.rs` reads: `schema`, `cvmfs_version`,
`last_geodb_update`, `os_version_id`, `os_pretty_name`, `os_id`,
`repositories`, `replicas`. -/
structure RepositoriesJSON where
  schema : Nat
  cvmfs_version : Option String
  last_geodb_update : MaybeRfc2822DateTime
  os_version_id : Option String
  os_pretty_name : Option String
  os_id : Option String
  repositories : List RepoEntry
  replicas : List RepoEntry
  deriving DecidableEq, Repr

/-- Modelled from the spec: `repositories_and_replicas` (defined in
`models/repositories_json.rs`, not under `src/`) returns the document's
repository and replica entries together — "repositories and replicas are
treated identically". -/
def RepositoriesJSON.repositories_and_replicas (rj : RepositoriesJSON) : List RepoEntry :=
  rj.repositories ++ rj.replicas

/-- The decoded meta.json document (`models/meta_json.rs`): the four
ownership fields, all required together. `custom` is an opaque JSON
value, modelled as a string. -/
structure MetaJSON where
  administrator : String
  email : String
  organisation : String
  custom : String
  deriving DecidableEq, Repr

/-- The decoded `.cvmfs_status.json` document (`models/cvmfs_status_json.rs`):
both timestamps independently optional. -/
structure StatusJSON where
  last_snapshot : MaybeRfc2822DateTime
  last_gc : MaybeRfc2822DateTime
  deriving DecidableEq, Repr

/-- The decoded repository manifest (`models/cvmfs_published.rs`); the
only field the core reads is the revision `s`. -/
structure Manifest where
  s : Int
  deriving DecidableEq, Repr

/-- A parsed semantic version (the `semver::Version` the scraper stores
in metadata). -/
structure SemVer where
  major : Nat
  minor : Nat
  patch : Nat
  deriving DecidableEq, Repr

/-- Metadata extracted from the discovery document, from
`struct MetadataFromRepoJSON` in `servers.rs`. -/
structure MetadataFromRepoJSON where
  schema_version : Option Nat
  cvmfs_version : Option SemVer
  last_geodb_update : MaybeRfc2822DateTime
  os_version_id : Option String
  os_pretty_name : Option String
  os_id : Option String
  deriving DecidableEq, Repr

/-- The all-`None` `MetadataFromRepoJSON` that `Server::scrape`
initialises `metadata` to. -/
def MetadataFromRepoJSON.empty : MetadataFromRepoJSON :=
  { schema_version := none
    cvmfs_version := none
    last_geodb_update := none
    os_version_id := none
    os_pretty_name := none
    os_id := none }

/-- Merged server metadata, from `struct ServerMetadata` in `servers.rs`. -/
structure ServerMetadata where
  schema_version : Option Nat
  cvmfs_version : Option SemVer
  last_geodb_update : MaybeRfc2822DateTime
  os_version_id : Option String
  os_pretty_name : Option String
  os_id : Option String
  administrator : Option String
  email : Option String
  organisation : Option String
  custom : Option String
  deriving DecidableEq, Repr

/-- A populated repository record, from
`struct PopulatedRepositoryOrReplica` in `servers.rs`. -/
structure PopulatedRepositoryOrReplica where
  name : String
  manifest : Manifest
  last_snapshot : MaybeRfc2822DateTime
  last_gc : MaybeRfc2822DateTime
  deriving DecidableEq, Repr

/-- A populated server, from `struct PopulatedServer` in `servers.rs`. -/
structure PopulatedServer where
  server_type : ServerType
  backend_type : ServerBackendType
  backend_detected : ServerBackendType
  hostname : Hostname
  repositories : List PopulatedRepositoryOrReplica
  metadata : ServerMetadata
  deriving DecidableEq, Repr

/-- A failed server, from `struct FailedServer` in `servers.rs`. -/
structure FailedServer where
  hostname : Hostname
  server_type : ServerType
  backend_type : ServerBackendType
  error : CVMFSScraperError
  deriving DecidableEq, Repr

/-- The scrape outcome, from `enum ScrapedServer` in `servers.rs`. -/
inductive ScrapedServer where
  | Populated (server : PopulatedServer)
  | Failed (failed : FailedServer)
  deriving DecidableEq, Repr

/-- `Server::as_failed_server` from `servers.rs`. -/
def Server.as_failed_server (srv : Server) (error : CVMFSScraperError) : FailedServer :=
  { hostname := srv.hostname
    server_type := srv.server_type
    backend_type := srv.backend_type
    error := error }

/-- The network/parsing environment one scrape runs against: the result
of each fetch `servers.rs` performs, keyed by repository name where the
URL embeds one, plus the external semver parser. -/
structure Env where
  reposJson : Except ScrapeError RepositoriesJSON
  metaJson : Except ScrapeError MetaJSON
  status : String → Except ScrapeError StatusJSON
  manifest : String → Except ManifestError Manifest
  parseVersion : String → Except String SemVer

/-- `MetadataFromRepoJSON::try_from(repo_json)` from `servers.rs`:
parse `cvmfs_version` (if present) as a semantic version — failure is a
`ConversionError` — and copy the remaining fields, with
`schema_version` always `Some(schema)`. -/
def MetadataFromRepoJSON.tryFrom (env : Env) (repo_json : RepositoriesJSON) :
    Except ScrapeError MetadataFromRepoJSON :=
  match repo_json.cvmfs_version with
  | none =>
    .ok { schema_version := some repo_json.schema
          cvmfs_version := none
          last_geodb_update := repo_json.last_geodb_update
          os_version_id := repo_json.os_version_id
          os_pretty_name := repo_json.os_pretty_name
          os_id := repo_json.os_id }
  | some v =>
    match env.parseVersion v with
    | .error e => .error (.ConversionError e)
    | .ok sv =>
      .ok { schema_version := some repo_json.schema
            cvmfs_version := some sv
            last_geodb_update := repo_json.last_geodb_update
            os_version_id := repo_json.os_version_id
            os_pretty_name := repo_json.os_pretty_name
            os_id := repo_json.os_id }

/-- `Server::validate_repo_json_and_server_type` from `servers.rs`. -/
def Server.validate_repo_json_and_server_type (srv : Server)
    (repo_json : RepositoriesJSON) : Except CVMFSScraperError Unit :=
  match srv.server_type, repo_json.replicas.isEmpty with
  | .Stratum0, false =>
    .error (.ScrapeError (.ServerTypeMismatch
      (srv.hostname.val ++ " is a Stratum0 server, but replicas were found in the repositories.json")))
  | .Stratum1, true =>
    .error (.ScrapeError (.ServerTypeMismatch
      (srv.hostname.val ++ " is a Stratum1 server, but no replicas were found in the repositories.json")))
  | .SyncServer, true =>
    .error (.ScrapeError (.ServerTypeMismatch
      (srv.hostname.val ++ " is a SyncServer, but no replicas were found in the repositories.json")))
  | _, _ => .ok ()

/-- `ServerMetadata::from(meta: MetaJSON)` from `servers.rs`: seed the
four ownership fields, protocol/OS fields unset. -/
def ServerMetadata.fromMetaJSON (meta : MetaJSON) : ServerMetadata :=
  { schema_version := none
    cvmfs_version := none
    last_geodb_update := none
    os_version_id := none
    os_pretty_name := none
    os_id := none
    administrator := some meta.administrator
    email := some meta.email
    organisation := some meta.organisation
    custom := some meta.custom }

/-- `ServerMetadata::merge_repo_metadata` from `servers.rs`: the six
protocol/OS fields are overwritten from `repo_meta` unconditionally. -/
def ServerMetadata.merge_repo_metadata (sm : ServerMetadata)
    (repo_meta : MetadataFromRepoJSON) : ServerMetadata :=
  { sm with
    schema_version := repo_meta.schema_version
    cvmfs_version := repo_meta.cvmfs_version
    last_geodb_update := repo_meta.last_geodb_update
    os_version_id := repo_meta.os_version_id
    os_pretty_name := repo_meta.os_pretty_name
    os_id := repo_meta.os_id }

/-- `Server::merge_metadata` from `servers.rs`: seed from meta.json when
present (else all-`None`), then overwrite the repo-json fields. -/
def Server.merge_metadata (srv : Server) (repo_meta : MetadataFromRepoJSON)
    (meta_json : Option MetaJSON) : ServerMetadata :=
  let server_metadata :=
    match meta_json with
    | some meta => ServerMetadata.fromMetaJSON meta
    | none =>
      { schema_version := none
        cvmfs_version := none
        last_geodb_update := none
        os_version_id := none
        os_pretty_name := none
        os_id := none
        administrator := none
        email := none
        organisation := none
        custom := none }
  server_metadata.merge_repo_metadata repo_meta

/-- A repository-or-replica handle, from `struct RepositoryOrReplica`
in `servers.rs`. -/
structure RepositoryOrReplica where
  server : Server
  name : String
  deriving DecidableEq, Repr

/-- `RepositoryOrReplica::new` from `servers.rs`. -/
def RepositoryOrReplica.new (name : String) (server : Server) : RepositoryOrReplica :=
  { server := server, name := name }

/-- `RepositoryOrReplica::scrape` from `servers.rs`: fetch the status
document first (`?` propagates its error into the crate error), then the
manifest, and assemble the populated record. -/
def RepositoryOrReplica.scrape (env : Env) (r : RepositoryOrReplica) :
    Except CVMFSScraperError PopulatedRepositoryOrReplica :=
  match env.status r.name with
  | .error e => .error (.ScrapeError e)
  | .ok repo_status =>
    match env.manifest r.name with
    | .error e => .error (.ManifestError e)
    | .ok m =>
      .ok { name := r.name
            manifest := m
            last_snapshot := repo_status.last_snapshot
            last_gc := repo_status.last_gc }

/-- Lexicographic comparison of character sequences by code point; the
order `BTreeSet<String>` sorts by (UTF-8 byte order coincides with code
point order). -/
def strLtAux : List Char → List Char → Bool
  | [], [] => false
  | [], _ :: _ => true
  | _ :: _, [] => false
  | a :: as, b :: bs =>
    if a.toNat < b.toNat then true
    else if b.toNat < a.toNat then false
    else strLtAux as bs

/-- Strict lexicographic order on strings, as used by `BTreeSet<String>`. -/
def strLt (x y : String) : Bool :=
  strLtAux x.data y.data

/-- Ordered insertion into a sorted duplicate-free list: the effect of
`BTreeSet::insert` on the set's ascending element sequence. -/
def insertSorted (x : String) : List String → List String
  | [] => [x]
  | y :: ys =>
    if strLt x y then x :: y :: ys
    else if x = y then y :: ys
    else y :: insertSorted x ys

/-- Inserting every element of `new` into the set `s`: the effect of
`BTreeSet::extend` (`all_repos.extend(...)` in `Server::scrape`). -/
def extendSet (s : List String) (new : List String) : List String :=
  new.foldl (fun acc n => insertSorted n acc) s

/-- Collecting a list into a `BTreeSet<String>`
(`repositories.iter().map(to_string).collect()` in `Server::scrape`):
the resulting ascending, duplicate-free element sequence. -/
def btset (l : List String) : List String :=
  extendSet [] l

/-- `Ok(meta) => Some(meta), Err(_) => None` applied to the meta.json
fetch in `Server::scrape`. -/
def metaOpt (env : Env) : Option MetaJSON :=
  match env.metaJson with
  | .ok meta => some meta
  | .error _ => none

/-- The backend-resolution `match self.backend_type` block of
`Server::scrape`: returns the updated repository set, the detected
backend and the repo-json metadata, or the early-return error. -/
def resolveBackend (env : Env) (srv : Server) (all_repos : List String) :
    Except CVMFSScraperError (List String × ServerBackendType × MetadataFromRepoJSON) :=
  match srv.backend_type with
  | .AutoDetect =>
    match env.reposJson with
    | .ok repo_json =>
      match srv.validate_repo_json_and_server_type repo_json with
      | .error e => .error e
      | .ok _ =>
        match MetadataFromRepoJSON.tryFrom env repo_json with
        | .error e => .error (.ScrapeError e)
        | .ok meta =>
          .ok (extendSet all_repos (repo_json.repositories_and_replicas.map RepoEntry.name),
               .CVMFS, meta)
    | .error e =>
      match e with
      | .FetchError _ => .ok (all_repos, .S3, MetadataFromRepoJSON.empty)
      | _ => .error (.ScrapeError e)
  | .S3 =>
    if all_repos.isEmpty then
      .error (.ScrapeError (.EmptyRepositoryList srv.hostname.val))
    else
      .ok (all_repos, srv.backend_type, MetadataFromRepoJSON.empty)
  | .CVMFS =>
    match env.reposJson with
    | .error e => .error (.ScrapeError e)
    | .ok repo_json =>
      match MetadataFromRepoJSON.tryFrom env repo_json with
      | .error e => .error (.ScrapeError e)
      | .ok meta =>
        match srv.validate_repo_json_and_server_type repo_json with
        | .error e => .error e
        | .ok _ =>
          .ok (extendSet all_repos (repo_json.repositories_and_replicas.map RepoEntry.name),
               srv.backend_type, meta)

/-- The `for repo in all_repos` loop of `Server::scrape`: scrape each
repository in set (ascending) order, returning the populated records or
the first error encountered. -/
def scrapeAll (env : Env) (srv : Server) : List String →
    Except CVMFSScraperError (List PopulatedRepositoryOrReplica)
  | [] => .ok []
  | r :: rs =>
    match RepositoryOrReplica.scrape env (RepositoryOrReplica.new r srv) with
    | .error e => .error e
    | .ok p =>
      match scrapeAll env srv rs with
      | .error e => .error e
      | .ok ps => .ok (p :: ps)

/-- The error of the first repository in the list whose scrape fails,
if any. -/
def firstFailing (env : Env) (srv : Server) : List String → Option CVMFSScraperError
  | [] => none
  | r :: rs =>
    match RepositoryOrReplica.scrape env (RepositoryOrReplica.new r srv) with
    | .error e => some e
    | .ok _ => firstFailing env srv rs

/-- The tail of `Server::scrape` after backend resolution: the
repository loop, the tolerated meta.json fetch, the metadata merge and
the `Populated` construction. -/
def scrapeRest (env : Env) (srv : Server) (repos : List String)
    (backend_detected : ServerBackendType) (meta : MetadataFromRepoJSON) : ScrapedServer :=
  match scrapeAll env srv repos with
  | .error e => .Failed (srv.as_failed_server e)
  | .ok populated_repos =>
    .Populated
      { server_type := srv.server_type
        backend_type := srv.backend_type
        backend_detected := backend_detected
        hostname := srv.hostname
        repositories := populated_repos
        metadata := srv.merge_metadata meta (metaOpt env) }

/-- `Server::scrape` from `servers.rs`: collect the supplied names into
a `BTreeSet`, resolve the backend (early-returning its error), then run
the repository loop, the meta.json fetch and the metadata merge. -/
def Server.scrape (env : Env) (srv : Server) (repositories : List String) : ScrapedServer :=
  match resolveBackend env srv (btset repositories) with
  | .error e => .Failed (srv.as_failed_server e)
  | .ok (repos, backend_detected, meta) => scrapeRest env srv repos backend_detected meta

/-- Names the discovery document contributes to the repository set: the
entries of `repositories_and_replicas` when the backend mode consults a
successfully fetched document, nothing otherwise. -/
def discoveredNames (env : Env) (srv : Server) : List String :=
  match srv.backend_type, env.reposJson with
  | .AutoDetect, .ok repo_json => repo_json.repositories_and_replicas.map RepoEntry.name
  | .CVMFS, .ok repo_json => repo_json.repositories_and_replicas.map RepoEntry.name
  | _, _ => []

/-- Whether an outcome is `Failed` with a `ServerTypeMismatch` error. -/
def ScrapedServer.failedWithServerTypeMismatch : ScrapedServer → Bool
  | .Failed f =>
    match f.error with
    | .ScrapeError (.ServerTypeMismatch _) => true
    | _ => false
  | .Populated _ => false

/-- The role/topology conflict that `validate_repo_json_and_server_type`
rejects: an origin whose document lists replicas, or a mirror whose
document lists none. -/
def topologyViolated (srv : Server) (rj : RepositoriesJSON) : Prop :=
  (srv.server_type = .Stratum0 ∧ rj.replicas ≠ []) ∨
    ((srv.server_type = .Stratum1 ∨ srv.server_type = .SyncServer) ∧ rj.replicas = [])

/-- The `ServerTypeMismatch` message `validate_repo_json_and_server_type`
produces for each role. -/
def mismatchMsg (srv : Server) : String :=
  match srv.server_type with
  | .Stratum0 => srv.hostname.val ++ " is a Stratum0 server, but replicas were found in the repositories.json"
  | .Stratum1 => srv.hostname.val ++ " is a Stratum1 server, but no replicas were found in the repositories.json"
  | .SyncServer => srv.hostname.val ++ " is a SyncServer, but no replicas were found in the repositories.json"

/-!
Concrete fixtures used by the witness and counterexample theorems below.
-/

/-- A status fetch that succeeds for every repository, with both
timestamps absent. -/
def statusAllOk : String → Except ScrapeError StatusJSON :=
  fun _ => .ok { last_snapshot := none, last_gc := none }

/-- A manifest fetch that succeeds for every repository. -/
def manifestAllOk : String → Except ManifestError Manifest :=
  fun _ => .ok { s := 1 }

/-- A semver parser that rejects every string (all fixture documents
either carry no version or a malformed one). -/
def parseVersionFail : String → Except String SemVer :=
  fun _ => .error "unexpected character"

/-- Fixture hostname. -/
def hostW : Hostname := { val := "s1.example.org" }

/-- A Stratum1 server with backend auto-detection. -/
def srvAuto1 : Server :=
  { server_type := .Stratum1, backend_type := .AutoDetect, hostname := hostW }

/-- A Stratum0 server with backend auto-detection. -/
def srvOriginAuto : Server :=
  { server_type := .Stratum0, backend_type := .AutoDetect, hostname := hostW }

/-- A Stratum0 server with explicit CVMFS backend. -/
def srvOriginCvmfs : Server :=
  { server_type := .Stratum0, backend_type := .CVMFS, hostname := hostW }

/-- A Stratum1 server with explicit S3 backend. -/
def srvS3 : Server :=
  { server_type := .Stratum1, backend_type := .S3, hostname := hostW }

/-- A meta.json document with all four ownership fields. -/
def metaW : MetaJSON :=
  { administrator := "Alice"
    email := "alice@example.org"
    organisation := "Example Org"
    custom := "{}" }

/-- A discovery document for a mirror: one repository entry and one
replica entry, no version string. -/
def rjMirror : RepositoriesJSON :=
  { schema := 1
    cvmfs_version := none
    last_geodb_update := none
    os_version_id := none
    os_pretty_name := none
    os_id := none
    repositories := [{ name := "b" }]
    replicas := [{ name := "c" }] }

/-- A discovery document that lists a replica (violating a Stratum0
role). -/
def rjViolate : RepositoriesJSON :=
  { schema := 1
    cvmfs_version := none
    last_geodb_update := none
    os_version_id := none
    os_pretty_name := none
    os_id := none
    repositories := []
    replicas := [{ name := "r1" }] }

/-- `rjViolate` with a malformed version string added. -/
def rjBadVersion : RepositoriesJSON :=
  { rjViolate with cvmfs_version := some "definitely not semver" }

/-- Environment in which every server-level document fetch fails
transport-wise and every repository fetch succeeds. -/
def envFetchFail : Env :=
  { reposJson := .error (.FetchError "connection refused")
    metaJson := .error (.FetchError "connection refused")
    status := statusAllOk
    manifest := manifestAllOk
    parseVersion := parseVersionFail }

/-- Environment with a reachable mirror discovery document and a
reachable meta.json. -/
def envDocOk : Env :=
  { reposJson := .ok rjMirror
    metaJson := .ok metaW
    status := statusAllOk
    manifest := manifestAllOk
    parseVersion := parseVersionFail }

/-- Environment with a reachable topology-violating discovery document. -/
def envViolate : Env :=
  { reposJson := .ok rjViolate
    metaJson := .error (.FetchError "connection refused")
    status := statusAllOk
    manifest := manifestAllOk
    parseVersion := parseVersionFail }

/-- Environment with a reachable document that both violates topology
and carries a malformed version string. -/
def envBadVersion : Env :=
  { reposJson := .ok rjBadVersion
    metaJson := .error (.FetchError "connection refused")
    status := statusAllOk
    manifest := manifestAllOk
    parseVersion := parseVersionFail }

/-- Environment whose discovery document is reachable but malformed
(decode failure rather than transport failure). -/
def envParseFailDoc : Env :=
  { reposJson := .error (.ParseError "expected value at line 1")
    metaJson := .error (.FetchError "connection refused")
    status := statusAllOk
    manifest := manifestAllOk
    parseVersion := parseVersionFail }

/-- A manifest fetch that 404s for repository r2 and succeeds elsewhere. -/
def manifest404 : String → Except ManifestError Manifest :=
  fun n => if n = "r2" then .error (.FetchError "HTTP status client error 404") else .ok { s := 1 }

/-- Environment in which repository r2 fails its manifest fetch. -/
def envManifest404 : Env :=
  { reposJson := .error (.FetchError "connection refused")
    metaJson := .error (.FetchError "connection refused")
    status := statusAllOk
    manifest := manifest404
    parseVersion := parseVersionFail }

/-- Environment for an S3 server that nevertheless serves a meta.json. -/
def envS3Meta : Env :=
  { reposJson := .error (.FetchError "connection refused")
    metaJson := .ok metaW
    status := statusAllOk
    manifest := manifestAllOk
    parseVersion := parseVersionFail }

/-- `envS3Meta` with a different discovery document and semver parser:
the parts an explicit-S3 scrape never consults. -/
def envS3MetaAltDoc : Env :=
  { reposJson := .ok rjMirror
    metaJson := .ok metaW
    status := statusAllOk
    manifest := manifestAllOk
    parseVersion := fun _ => .ok { major := 2, minor := 9, patch := 0 } }

/-- The populated outcome of scraping `srvAuto1` with no supplied names
against `envFetchFail`. -/
def pEmptyAuto : PopulatedServer :=
  { server_type := .Stratum1
    backend_type := .AutoDetect
    backend_detected := .S3
    hostname := hostW
    repositories := []
    metadata :=
      { schema_version := none
        cvmfs_version := none
        last_geodb_update := none
        os_version_id := none
        os_pretty_name := none
        os_id := none
        administrator := none
        email := none
        organisation := none
        custom := none } }

/-- The populated outcome of scraping `srvAuto1` with supplied names
b, a, b against `envDocOk`. -/
def pDocOk : PopulatedServer :=
  { server_type := .Stratum1
    backend_type := .AutoDetect
    backend_detected := .CVMFS
    hostname := hostW
    repositories :=
      [{ name := "a", manifest := { s := 1 }, last_snapshot := none, last_gc := none },
       { name := "b", manifest := { s := 1 }, last_snapshot := none, last_gc := none },
       { name := "c", manifest := { s := 1 }, last_snapshot := none, last_gc := none }]
    metadata :=
      { schema_version := some 1
        cvmfs_version := none
        last_geodb_update := none
        os_version_id := none
        os_pretty_name := none
        os_id := none
        administrator := some "Alice"
        email := some "alice@example.org"
        organisation := some "Example Org"
        custom := some "{}" } }

/-- The populated outcome of scraping `srvS3` with supplied name r1
against `envS3Meta`. -/
def pS3Meta : PopulatedServer :=
  { server_type := .Stratum1
    backend_type := .S3
    backend_detected := .S3
    hostname := hostW
    repositories :=
      [{ name := "r1", manifest := { s := 1 }, last_snapshot := none, last_gc := none }]
    metadata :=
      { schema_version := none
        cvmfs_version := none
        last_geodb_update := none
        os_version_id := none
        os_pretty_name := none
        os_id := none
        administrator := some "Alice"
        email := some "alice@example.org"
        organisation := some "Example Org"
        custom := some "{}" } }

/-- A list is strictly ascending in the `BTreeSet` string order. -/
def SortedStr (l : List String) : Prop :=
  List.Pairwise (fun a b => strLt a b = true) l

theorem strLtAux_irrefl : ∀ l : List Char, strLtAux l l = false := by
  intro l
  induction l with
  | nil => rfl
  | cons a as ih => simp [strLtAux, ih]

theorem strLtAux_asymm : ∀ l₁ l₂ : List Char,
    strLtAux l₁ l₂ = true → strLtAux l₂ l₁ = false := by
  intro l₁
  induction l₁ with
  | nil =>
    intro l₂ h
    cases l₂ with
    | nil => simp [strLtAux] at h
    | cons b bs => simp [strLtAux]
  | cons a as ih =>
    intro l₂ h
    cases l₂ with
    | nil => simp [strLtAux] at h
    | cons b bs =>
      by_cases hab : a.toNat < b.toNat
      · have hba : ¬ b.toNat < a.toNat := by omega
        simp [strLtAux, hab, hba]
      · by_cases hba : b.toNat < a.toNat
        · simp [strLtAux, hab, hba] at h
        · simp [strLtAux, hab, hba] at h ⊢
          exact ih bs h

theorem strLtAux_trans : ∀ l₁ l₂ l₃ : List Char,
    strLtAux l₁ l₂ = true → strLtAux l₂ l₃ = true → strLtAux l₁ l₃ = true := by
  intro l₁
  induction l₁ with
  | nil =>
    intro l₂ l₃ h₁ h₂
    cases l₂ with
    | nil => simp [strLtAux] at h₁
    | cons b bs =>
      cases l₃ with
      | nil => simp [strLtAux] at h₂
      | cons c cs => simp [strLtAux]
  | cons a as ih =>
    intro l₂ l₃ h₁ h₂
    cases l₂ with
    | nil => simp [strLtAux] at h₁
    | cons b bs =>
      cases l₃ with
      | nil => simp [strLtAux] at h₂
      | cons c cs =>
        by_cases hab : a.toNat < b.toNat <;> by_cases hbc : b.toNat < c.toNat
        · have hac : a.toNat < c.toNat := by omega
          simp [strLtAux, hac]
        · by_cases hcb : c.toNat < b.toNat
          · simp [strLtAux, hbc, hcb] at h₂
          · have hac : a.toNat < c.toNat := by omega
            simp [strLtAux, hac]
        · by_cases hba : b.toNat < a.toNat
          · simp [strLtAux, hab, hba] at h₁
          · have hac : a.toNat < c.toNat := by omega
            simp [strLtAux, hac]
        · by_cases hba : b.toNat < a.toNat
          · simp [strLtAux, hab, hba] at h₁
          · by_cases hcb : c.toNat < b.toNat
            · simp [strLtAux, hbc, hcb] at h₂
            · have hac : ¬ a.toNat < c.toNat := by omega
              have hca : ¬ c.toNat < a.toNat := by omega
              simp [strLtAux, hab, hba] at h₁
              simp [strLtAux, hbc, hcb] at h₂
              simp [strLtAux, hac, hca]
              exact ih bs cs h₁ h₂

theorem strLtAux_eq_of_not : ∀ l₁ l₂ : List Char,
    strLtAux l₁ l₂ = false → strLtAux l₂ l₁ = false → l₁ = l₂ := by
  intro l₁
  induction l₁ with
  | nil =>
    intro l₂ h₁ _
    cases l₂ with
    | nil => rfl
    | cons b bs => simp [strLtAux] at h₁
  | cons a as ih =>
    intro l₂ h₁ h₂
    cases l₂ with
    | nil => simp [strLtAux] at h₂
    | cons b bs =>
      by_cases hab : a.toNat < b.toNat
      · simp [strLtAux, hab] at h₁
      · by_cases hba : b.toNat < a.toNat
        · simp [strLtAux, hba] at h₂
        · simp only [Char.toNat] at hab hba
          have hval : a = b := Char.eq_of_val_eq (UInt32.toNat.inj (by omega))
          subst hval
          simp [strLtAux, hab] at h₁ h₂
          rw [ih bs h₁ h₂]

theorem strLt_irrefl (x : String) : strLt x x = false :=
  strLtAux_irrefl x.data

theorem strLt_asymm {x y : String} (h : strLt x y = true) : strLt y x = false :=
  strLtAux_asymm x.data y.data h

theorem strLt_trans {x y z : String} (h₁ : strLt x y = true) (h₂ : strLt y z = true) :
    strLt x z = true :=
  strLtAux_trans x.data y.data z.data h₁ h₂

theorem strLt_eq_of_not {x y : String} (h₁ : strLt x y = false)
    (h₂ : strLt y x = false) : x = y := by
  cases x with
  | mk xd =>
    cases y with
    | mk yd =>
      have : xd = yd := strLtAux_eq_of_not xd yd h₁ h₂
      rw [this]

theorem mem_insertSorted (a x : String) : ∀ l : List String,
    (a ∈ insertSorted x l ↔ a = x ∨ a ∈ l) := by
  intro l
  induction l with
  | nil => simp [insertSorted]
  | cons y ys ih =>
    by_cases hlt : strLt x y = true
    · simp [insertSorted, hlt]
    · by_cases heq : x = y
      · subst heq
        have hx : insertSorted x (x :: ys) = x :: ys := by
          simp [insertSorted, hlt]
        rw [hx, List.mem_cons]
        simp [List.mem_cons]
      · have hx : insertSorted x (y :: ys) = y :: insertSorted x ys := by
          simp [insertSorted, hlt, heq]
        rw [hx, List.mem_cons, ih, List.mem_cons]
        tauto

theorem sorted_insertSorted (x : String) : ∀ l : List String,
    SortedStr l → SortedStr (insertSorted x l) := by
  intro l
  induction l with
  | nil =>
    intro _
    simp [insertSorted, SortedStr]
  | cons y ys ih =>
    intro hs
    have hs1 : ∀ b ∈ ys, strLt y b = true := (List.pairwise_cons.mp hs).1
    have hs2 : SortedStr ys := (List.pairwise_cons.mp hs).2
    by_cases hlt : strLt x y = true
    · have hx : insertSorted x (y :: ys) = x :: y :: ys := by
        simp [insertSorted, hlt]
      rw [hx]
      refine List.Pairwise.cons ?_ hs
      intro b hb
      rcases List.mem_cons.mp hb with hb | hb
      · rw [hb]; exact hlt
      · exact strLt_trans hlt (hs1 b hb)
    · have hlt' : strLt x y = false := Bool.eq_false_iff.mpr hlt
      by_cases heq : x = y
      · subst heq
        have hx : insertSorted x (x :: ys) = x :: ys := by
          simp [insertSorted, strLt_irrefl]
        rw [hx]; exact hs
      · have hyx : strLt y x = true := by
          rcases Bool.eq_false_or_eq_true (strLt y x) with h | h
          · exact h
          · exact absurd (strLt_eq_of_not hlt' h) heq
        have hx : insertSorted x (y :: ys) = y :: insertSorted x ys := by
          simp [insertSorted, hlt, heq]
        rw [hx]
        refine List.Pairwise.cons ?_ (ih hs2)
        intro b hb
        rcases (mem_insertSorted b x ys).mp hb with hb | hb
        · rw [hb]; exact hyx
        · exact hs1 b hb

theorem mem_extendSet (a : String) : ∀ (new s : List String),
    (a ∈ extendSet s new ↔ a ∈ s ∨ a ∈ new) := by
  intro new
  induction new with
  | nil => simp [extendSet]
  | cons n ns ih =>
    intro s
    have hx : extendSet s (n :: ns) = extendSet (insertSorted n s) ns := by
      simp [extendSet]
    rw [hx, ih, mem_insertSorted]
    simp [List.mem_cons]
    tauto

theorem sorted_extendSet : ∀ (new s : List String),
    SortedStr s → SortedStr (extendSet s new) := by
  intro new
  induction new with
  | nil => intro s hs; simpa [extendSet] using hs
  | cons n ns ih =>
    intro s hs
    have hx : extendSet s (n :: ns) = extendSet (insertSorted n s) ns := by
      simp [extendSet]
    rw [hx]
    exact ih _ (sorted_insertSorted n s hs)

theorem mem_btset (a : String) (l : List String) : a ∈ btset l ↔ a ∈ l := by
  rw [btset, mem_extendSet]
  simp

theorem sorted_btset (l : List String) : SortedStr (btset l) :=
  sorted_extendSet l [] (List.Pairwise.nil)

theorem nodup_of_sortedStr {l : List String} (h : SortedStr l) : l.Nodup := by
  refine List.Pairwise.imp ?_ h
  intro a b hab heq
  rw [heq, strLt_irrefl] at hab
  exact Bool.false_ne_true hab

theorem sortedStr_eq_of_mem_iff : ∀ {l₁ l₂ : List String},
    SortedStr l₁ → SortedStr l₂ → (∀ a, a ∈ l₁ ↔ a ∈ l₂) → l₁ = l₂ := by
  intro l₁
  induction l₁ with
  | nil =>
    intro l₂ _ _ hmem
    cases l₂ with
    | nil => rfl
    | cons b bs =>
      exact absurd ((hmem b).mpr (List.mem_cons_self b bs)) (List.not_mem_nil b)
  | cons x xs ih =>
    intro l₂ hs₁ hs₂ hmem
    cases l₂ with
    | nil =>
      exact absurd ((hmem x).mp (List.mem_cons_self x xs)) (List.not_mem_nil x)
    | cons y ys =>
      have hhead₁ : ∀ b ∈ xs, strLt x b = true := (List.pairwise_cons.mp hs₁).1
      have hhead₂ : ∀ b ∈ ys, strLt y b = true := (List.pairwise_cons.mp hs₂).1
      have hxy : x = y := by
        by_contra hne
        have hx2 : x ∈ ys := by
          rcases List.mem_cons.mp ((hmem x).mp (List.mem_cons_self x xs)) with h | h
          · exact absurd h hne
          · exact h
        have hy1 : y ∈ xs := by
          rcases List.mem_cons.mp ((hmem y).mpr (List.mem_cons_self y ys)) with h | h
          · exact absurd h.symm hne
          · exact h
        have h1 : strLt y x = true := hhead₂ x hx2
        have h2 : strLt x y = true := hhead₁ y hy1
        rw [strLt_asymm h2] at h1
        exact Bool.false_ne_true h1
      subst hxy
      have htail : ∀ a, a ∈ xs ↔ a ∈ ys := by
        intro a
        constructor
        · intro ha
          have hax : a ≠ x := by
            intro hh
            have := hhead₁ a ha
            rw [hh, strLt_irrefl] at this
            exact Bool.false_ne_true this
          rcases List.mem_cons.mp ((hmem a).mp (List.mem_cons_of_mem x ha)) with h | h
          · exact absurd h hax
          · exact h
        · intro ha
          have hax : a ≠ x := by
            intro hh
            have := hhead₂ a ha
            rw [hh, strLt_irrefl] at this
            exact Bool.false_ne_true this
          rcases List.mem_cons.mp ((hmem a).mpr (List.mem_cons_of_mem x ha)) with h | h
          · exact absurd h hax
          · exact h
      have hxs : xs = ys :=
        ih (List.pairwise_cons.mp hs₁).2 (List.pairwise_cons.mp hs₂).2 htail
      rw [hxs]

theorem repoScrape_ok_name (env : Env) (r : RepositoryOrReplica)
    {p : PopulatedRepositoryOrReplica}
    (h : RepositoryOrReplica.scrape env r = .ok p) : p.name = r.name := by
  unfold RepositoryOrReplica.scrape at h
  cases hs : env.status r.name with
  | error e => rw [hs] at h; simp at h
  | ok st =>
    rw [hs] at h
    cases hm : env.manifest r.name with
    | error e => rw [hm] at h; simp at h
    | ok m =>
      rw [hm] at h
      simp at h
      rw [← h]

theorem scrapeAll_ok_names (env : Env) (srv : Server) : ∀ (repos : List String)
    (ps : List PopulatedRepositoryOrReplica),
    scrapeAll env srv repos = .ok ps → ps.map PopulatedRepositoryOrReplica.name = repos := by
  intro repos
  induction repos with
  | nil =>
    intro ps h
    simp [scrapeAll] at h
    simp [h]
  | cons r rs ih =>
    intro ps h
    unfold scrapeAll at h
    cases h1 : RepositoryOrReplica.scrape env (RepositoryOrReplica.new r srv) with
    | error e => rw [h1] at h; simp at h
    | ok p =>
      rw [h1] at h
      cases h2 : scrapeAll env srv rs with
      | error e => rw [h2] at h; simp at h
      | ok ps2 =>
        rw [h2] at h
        simp at h
        have hn : p.name = r := repoScrape_ok_name env _ h1
        rw [← h, List.map_cons, hn, ih ps2 h2]

theorem scrapeAll_error_of_firstFailing (env : Env) (srv : Server) :
    ∀ (repos : List String) (e : CVMFSScraperError),
    firstFailing env srv repos = some e → scrapeAll env srv repos = .error e := by
  intro repos
  induction repos with
  | nil => intro e h; simp [firstFailing] at h
  | cons r rs ih =>
    intro e h
    unfold firstFailing at h
    unfold scrapeAll
    cases h1 : RepositoryOrReplica.scrape env (RepositoryOrReplica.new r srv) with
    | error e2 =>
      rw [h1] at h
      simp at h
      rw [h]
    | ok p =>
      rw [h1] at h
      simp at h
      rw [ih e h]

theorem scrapeAll_ok_of_firstFailing_none (env : Env) (srv : Server) :
    ∀ repos : List String, firstFailing env srv repos = none →
    ∃ ps, scrapeAll env srv repos = .ok ps := by
  intro repos
  induction repos with
  | nil => intro _; exact ⟨[], rfl⟩
  | cons r rs ih =>
    intro h
    unfold firstFailing at h
    unfold scrapeAll
    cases h1 : RepositoryOrReplica.scrape env (RepositoryOrReplica.new r srv) with
    | error e2 => rw [h1] at h; simp at h
    | ok p =>
      rw [h1] at h
      obtain ⟨ps, hps⟩ := ih h
      exact ⟨p :: ps, by rw [hps]⟩

theorem scrape_resolve_error (env : Env) (srv : Server) (repositories : List String)
    (e : CVMFSScraperError)
    (h : resolveBackend env srv (btset repositories) = .error e) :
    Server.scrape env srv repositories = .Failed (srv.as_failed_server e) := by
  unfold Server.scrape
  rw [h]

theorem scrape_resolve_ok (env : Env) (srv : Server) (repositories : List String)
    (repos : List String) (bd : ServerBackendType) (meta : MetadataFromRepoJSON)
    (h : resolveBackend env srv (btset repositories) = .ok (repos, bd, meta)) :
    Server.scrape env srv repositories = scrapeRest env srv repos bd meta := by
  unfold Server.scrape
  rw [h]

theorem scrape_populated_inv (env : Env) (srv : Server) (repositories : List String)
    (p : PopulatedServer)
    (hp : Server.scrape env srv repositories = .Populated p) :
    ∃ repos bd meta ps,
      resolveBackend env srv (btset repositories) = .ok (repos, bd, meta) ∧
      scrapeAll env srv repos = .ok ps ∧
      p = { server_type := srv.server_type
            backend_type := srv.backend_type
            backend_detected := bd
            hostname := srv.hostname
            repositories := ps
            metadata := srv.merge_metadata meta (metaOpt env) } := by
  unfold Server.scrape at hp
  cases hres : resolveBackend env srv (btset repositories) with
  | error e => rw [hres] at hp; simp at hp
  | ok t =>
    obtain ⟨repos, bd, meta⟩ := t
    rw [hres] at hp
    simp only [] at hp
    unfold scrapeRest at hp
    cases hall : scrapeAll env srv repos with
    | error e => rw [hall] at hp; simp at hp
    | ok ps =>
      rw [hall] at hp
      simp at hp
      exact ⟨repos, bd, meta, ps, rfl, hall, hp.symm⟩

theorem resolveBackend_ok_inv (env : Env) (srv : Server) (all0 repos : List String)
    (bd : ServerBackendType) (meta : MetadataFromRepoJSON)
    (h : resolveBackend env srv all0 = .ok (repos, bd, meta)) :
    (bd = .S3 ∨ bd = .CVMFS) ∧
    (∀ a, a ∈ repos ↔ a ∈ all0 ∨ a ∈ discoveredNames env srv) ∧
    (SortedStr all0 → SortedStr repos) := by
  unfold resolveBackend at h
  split at h
  · -- AutoDetect
    rename_i hb
    split at h
    · -- repositories.json fetched and decoded
      rename_i repo_json hj
      split at h
      · exact absurd h (by simp)
      · split at h
        · exact absurd h (by simp)
        · rename_i meta2 hm
          simp at h
          obtain ⟨h1, h2, h3⟩ := h
          subst h1; subst h2; subst h3
          refine ⟨Or.inr rfl, ?_, ?_⟩
          · intro a
            rw [mem_extendSet]
            simp [discoveredNames, hb, hj]
          · intro hs
            exact sorted_extendSet _ _ hs
    · -- fetch failed
      rename_i e hj
      split at h
      · rename_i m
        simp at h
        obtain ⟨h1, h2, h3⟩ := h
        subst h1; subst h2; subst h3
        refine ⟨Or.inl rfl, ?_, fun hs => hs⟩
        intro a
        simp [discoveredNames, hb, hj]
      · exact absurd h (by simp)
  · -- S3
    rename_i hb
    split at h
    · exact absurd h (by simp)
    · simp at h
      obtain ⟨h1, h2, h3⟩ := h
      subst h1
      refine ⟨?_, ?_, ?_⟩
      · rw [← h2, hb]
        exact Or.inl rfl
      · intro a
        simp [discoveredNames, hb]
      · intro hs
        exact hs
  · -- CVMFS
    rename_i hb
    split at h
    · exact absurd h (by simp)
    · rename_i repo_json hj
      split at h
      · exact absurd h (by simp)
      · rename_i meta2 hm
        split at h
        · exact absurd h (by simp)
        · simp at h
          obtain ⟨h1, h2, h3⟩ := h
          subst h1; subst h3
          refine ⟨?_, ?_, ?_⟩
          · rw [← h2, hb]
            exact Or.inr rfl
          · intro a
            rw [mem_extendSet]
            simp [discoveredNames, hb, hj]
          · intro hs
            exact sorted_extendSet _ _ hs

theorem resolveBackend_autodetect_fetchError (env : Env) (srv : Server)
    (all0 : List String) (m : String)
    (hb : srv.backend_type = .AutoDetect)
    (he : env.reposJson = .error (.FetchError m)) :
    resolveBackend env srv all0 = .ok (all0, .S3, MetadataFromRepoJSON.empty) := by
  unfold resolveBackend
  rw [hb, he]

theorem resolveBackend_autodetect_otherError (env : Env) (srv : Server)
    (all0 : List String) (e : ScrapeError)
    (hb : srv.backend_type = .AutoDetect)
    (he : env.reposJson = .error e)
    (hne : ∀ m, e ≠ .FetchError m) :
    resolveBackend env srv all0 = .error (.ScrapeError e) := by
  unfold resolveBackend
  rw [hb, he]
  cases e with
  | FetchError m => exact absurd rfl (hne m)
  | ParseError m => rfl
  | EmptyRepositoryList m => rfl
  | ServerTypeMismatch m => rfl
  | ConversionError m => rfl

theorem resolveBackend_autodetect_ok (env : Env) (srv : Server)
    (all0 : List String) (rj : RepositoriesJSON)
    (hb : srv.backend_type = .AutoDetect)
    (hj : env.reposJson = .ok rj) :
    resolveBackend env srv all0 =
      match srv.validate_repo_json_and_server_type rj with
      | .error e => .error e
      | .ok _ =>
        match MetadataFromRepoJSON.tryFrom env rj with
        | .error e => .error (.ScrapeError e)
        | .ok meta =>
          .ok (extendSet all0 (rj.repositories_and_replicas.map RepoEntry.name), .CVMFS, meta) := by
  unfold resolveBackend
  rw [hb, hj]

theorem resolveBackend_s3 (env : Env) (srv : Server) (all0 : List String)
    (hb : srv.backend_type = .S3) :
    resolveBackend env srv all0 =
      if all0.isEmpty then
        .error (.ScrapeError (.EmptyRepositoryList srv.hostname.val))
      else .ok (all0, .S3, MetadataFromRepoJSON.empty) := by
  unfold resolveBackend
  rw [hb]

theorem resolveBackend_cvmfs_ok (env : Env) (srv : Server)
    (all0 : List String) (rj : RepositoriesJSON)
    (hb : srv.backend_type = .CVMFS)
    (hj : env.reposJson = .ok rj) :
    resolveBackend env srv all0 =
      match MetadataFromRepoJSON.tryFrom env rj with
      | .error e => .error (.ScrapeError e)
      | .ok meta =>
        match srv.validate_repo_json_and_server_type rj with
        | .error e => .error e
        | .ok _ =>
          .ok (extendSet all0 (rj.repositories_and_replicas.map RepoEntry.name), .CVMFS, meta) := by
  unfold resolveBackend
  rw [hb, hj]

theorem resolveBackend_ok_s3_meta (env : Env) (srv : Server)
    (all0 repos : List String) (meta : MetadataFromRepoJSON)
    (h : resolveBackend env srv all0 = .ok (repos, .S3, meta)) :
    meta = MetadataFromRepoJSON.empty := by
  unfold resolveBackend at h
  split at h
  · -- AutoDetect
    split at h
    · -- document fetched: detected backend is CVMFS, contradiction
      split at h
      · exact absurd h (by simp)
      · split at h
        · exact absurd h (by simp)
        · simp at h
    · -- fetch failed
      split at h
      · simp at h
        first
        | exact h.symm
        | exact h.2.2.symm
        | exact h.2.symm
      · exact absurd h (by simp)
  · -- S3
    rename_i hb
    split at h
    · exact absurd h (by simp)
    · rw [hb] at h
      simp at h
      first
      | exact h.symm
      | exact h.2.2.symm
      | exact h.2.symm
  · -- CVMFS: detected backend is CVMFS, contradiction
    rename_i hb
    split at h
    · exact absurd h (by simp)
    · split at h
      · exact absurd h (by simp)
      · split at h
        · exact absurd h (by simp)
        · rw [hb] at h
          simp at h

theorem validate_error_of_topologyViolated (srv : Server) (rj : RepositoriesJSON)
    (hv : topologyViolated srv rj) :
    srv.validate_repo_json_and_server_type rj =
      .error (.ScrapeError (.ServerTypeMismatch (mismatchMsg srv))) := by
  unfold Server.validate_repo_json_and_server_type mismatchMsg
  rcases hv with ⟨h0, hr⟩ | ⟨h1, hr⟩
  · cases hrep : rj.replicas with
    | nil => exact absurd hrep hr
    | cons x xs => rw [h0]; rfl
  · rcases h1 with h1 | h1
    · rw [h1, hr]; rfl
    · rw [h1, hr]; rfl

theorem merge_metadata_spec (srv : Server) (rm : MetadataFromRepoJSON)
    (mj : Option MetaJSON) :
    (srv.merge_metadata rm mj).schema_version = rm.schema_version ∧
    (srv.merge_metadata rm mj).cvmfs_version = rm.cvmfs_version ∧
    (srv.merge_metadata rm mj).last_geodb_update = rm.last_geodb_update ∧
    (srv.merge_metadata rm mj).os_version_id = rm.os_version_id ∧
    (srv.merge_metadata rm mj).os_pretty_name = rm.os_pretty_name ∧
    (srv.merge_metadata rm mj).os_id = rm.os_id ∧
    (srv.merge_metadata rm mj).administrator = mj.map MetaJSON.administrator ∧
    (srv.merge_metadata rm mj).email = mj.map MetaJSON.email ∧
    (srv.merge_metadata rm mj).organisation = mj.map MetaJSON.organisation ∧
    (srv.merge_metadata rm mj).custom = mj.map MetaJSON.custom := by
  cases mj <;>
    simp [Server.merge_metadata, ServerMetadata.merge_repo_metadata, ServerMetadata.fromMetaJSON]

theorem metaOpt_congr (env env₂ : Env) (hmeta : env₂.metaJson = env.metaJson) :
    metaOpt env₂ = metaOpt env := by
  unfold metaOpt
  rw [hmeta]

theorem repoScrape_congr (env env₂ : Env) (r : RepositoryOrReplica)
    (hstatus : env₂.status = env.status) (hmanifest : env₂.manifest = env.manifest) :
    RepositoryOrReplica.scrape env₂ r = RepositoryOrReplica.scrape env r := by
  unfold RepositoryOrReplica.scrape
  rw [hstatus, hmanifest]

theorem scrapeAll_congr (env env₂ : Env) (srv : Server)
    (hstatus : env₂.status = env.status) (hmanifest : env₂.manifest = env.manifest) :
    ∀ repos : List String, scrapeAll env₂ srv repos = scrapeAll env srv repos := by
  intro repos
  induction repos with
  | nil => rfl
  | cons r rs ih =>
    unfold scrapeAll
    rw [repoScrape_congr env env₂ _ hstatus hmanifest, ih]

theorem scrapeRest_congr (env env₂ : Env) (srv : Server) (repos : List String)
    (bd : ServerBackendType) (meta : MetadataFromRepoJSON)
    (hmeta : env₂.metaJson = env.metaJson)
    (hstatus : env₂.status = env.status) (hmanifest : env₂.manifest = env.manifest) :
    scrapeRest env₂ srv repos bd meta = scrapeRest env srv repos bd meta := by
  unfold scrapeRest
  rw [scrapeAll_congr env env₂ srv hstatus hmanifest repos,
      metaOpt_congr env env₂ hmeta]

/-- Claim C1: for every scrape whose outcome is Populated, the detected
backend (`backend_detected`) is S3 or CVMFS, never AutoDetect,
regardless of the configured backend. -/
theorem c1_detected_backend_never_autodetect (env : Env) (srv : Server)
    (supplied : List String) (p : PopulatedServer)
    (hp : Server.scrape env srv supplied = .Populated p) :
    p.backend_detected ≠ .AutoDetect ∧
    (p.backend_detected = .S3 ∨ p.backend_detected = .CVMFS) := by
  obtain ⟨repos, bd, meta, ps, hres, hall, hpe⟩ :=
    scrape_populated_inv env srv supplied p hp
  obtain ⟨hbd, -, -⟩ := resolveBackend_ok_inv env srv _ repos bd meta hres
  subst hpe
  refine ⟨?_, hbd⟩
  rcases hbd with h | h <;> simp [h]

/-- Witness for C1: a concrete auto-detect scrape that ends Populated,
with detected backend S3. -/
theorem c1_witness :
    Server.scrape envFetchFail srvAuto1 [] = .Populated pEmptyAuto ∧
    pEmptyAuto.backend_detected ≠ .AutoDetect ∧
    (pEmptyAuto.backend_detected = .S3 ∨ pEmptyAuto.backend_detected = .CVMFS) :=
  ⟨by decide,
   c1_detected_backend_never_autodetect envFetchFail srvAuto1 [] pEmptyAuto (by decide)⟩

/-- Claim C5: the metadata merge takes the four ownership fields from
meta.json only (all four set exactly when meta.json is present) and the
six protocol/OS fields from the discovery-document pass, which
overwrites them unconditionally; no field draws from both sources. -/
theorem c5_metadata_merge (srv : Server) (rm : MetadataFromRepoJSON)
    (mj : Option MetaJSON) :
    (srv.merge_metadata rm mj).schema_version = rm.schema_version ∧
    (srv.merge_metadata rm mj).cvmfs_version = rm.cvmfs_version ∧
    (srv.merge_metadata rm mj).last_geodb_update = rm.last_geodb_update ∧
    (srv.merge_metadata rm mj).os_version_id = rm.os_version_id ∧
    (srv.merge_metadata rm mj).os_pretty_name = rm.os_pretty_name ∧
    (srv.merge_metadata rm mj).os_id = rm.os_id ∧
    (srv.merge_metadata rm mj).administrator = mj.map MetaJSON.administrator ∧
    (srv.merge_metadata rm mj).email = mj.map MetaJSON.email ∧
    (srv.merge_metadata rm mj).organisation = mj.map MetaJSON.organisation ∧
    (srv.merge_metadata rm mj).custom = mj.map MetaJSON.custom :=
  merge_metadata_spec srv rm mj

/-- Claim C10: under AutoDetect, a transport failure fetching the
discovery document together with an empty supplied list still yields a
Populated outcome with detected backend S3 and no repositories — the
EmptyRepositoryList failure is specific to the explicit S3 mode. -/
theorem c10_autodetect_empty_list_populated (env : Env) (srv : Server) (m : String)
    (hb : srv.backend_type = .AutoDetect)
    (he : env.reposJson = .error (.FetchError m)) :
    ∃ p, Server.scrape env srv [] = .Populated p ∧
      p.backend_detected = .S3 ∧ p.repositories = [] := by
  have hres : resolveBackend env srv (btset []) =
      .ok ([], .S3, MetadataFromRepoJSON.empty) :=
    resolveBackend_autodetect_fetchError env srv [] m hb he
  refine ⟨{ server_type := srv.server_type
            backend_type := srv.backend_type
            backend_detected := .S3
            hostname := srv.hostname
            repositories := []
            metadata := srv.merge_metadata MetadataFromRepoJSON.empty (metaOpt env) },
          ?_, rfl, rfl⟩
  rw [scrape_resolve_ok env srv [] [] .S3 MetadataFromRepoJSON.empty hres]
  rfl

/-- Witness for C10: the concrete fetch-failure environment with an
empty supplied list. -/
theorem c10_witness :
    ∃ p, Server.scrape envFetchFail srvAuto1 [] = .Populated p ∧
      p.backend_detected = .S3 ∧ p.repositories = [] :=
  c10_autodetect_empty_list_populated envFetchFail srvAuto1 "connection refused" rfl rfl

/-- Claim C2 (amended): when the discovery document is fetched and
decoded successfully and the role/topology is violated (Origin with a
replica listed, or Mirror/SyncMirror with none), the scrape fails with
ServerTypeMismatch — unconditionally in AutoDetect mode, and in explicit
CVMFS mode provided the metadata extraction (semver conversion) succeeds,
since that extraction runs before topology validation there. -/
theorem c2_topology_mismatch (env : Env) (srv : Server) (supplied : List String)
    (rj : RepositoriesJSON)
    (hj : env.reposJson = .ok rj) (hv : topologyViolated srv rj) :
    (srv.backend_type = .AutoDetect →
      Server.scrape env srv supplied =
        .Failed (srv.as_failed_server
          (.ScrapeError (.ServerTypeMismatch (mismatchMsg srv))))) ∧
    (srv.backend_type = .CVMFS →
      ∀ meta, MetadataFromRepoJSON.tryFrom env rj = .ok meta →
        Server.scrape env srv supplied =
          .Failed (srv.as_failed_server
            (.ScrapeError (.ServerTypeMismatch (mismatchMsg srv))))) := by
  have hval := validate_error_of_topologyViolated srv rj hv
  constructor
  · intro hb
    apply scrape_resolve_error
    rw [resolveBackend_autodetect_ok env srv _ rj hb hj, hval]
  · intro hb meta hm
    apply scrape_resolve_error
    rw [resolveBackend_cvmfs_ok env srv _ rj hb hj, hm, hval]

/-- Witness for C2: a Stratum0 auto-detect server whose reachable
discovery document lists a replica. -/
theorem c2_witness :
    (srvOriginAuto.backend_type = .AutoDetect →
      Server.scrape envViolate srvOriginAuto [] =
        .Failed (srvOriginAuto.as_failed_server
          (.ScrapeError (.ServerTypeMismatch (mismatchMsg srvOriginAuto))))) ∧
    (srvOriginAuto.backend_type = .CVMFS →
      ∀ meta, MetadataFromRepoJSON.tryFrom envViolate rjViolate = .ok meta →
        Server.scrape envViolate srvOriginAuto [] =
          .Failed (srvOriginAuto.as_failed_server
            (.ScrapeError (.ServerTypeMismatch (mismatchMsg srvOriginAuto))))) :=
  c2_topology_mismatch envViolate srvOriginAuto [] rjViolate rfl
    (Or.inl ⟨rfl, by decide⟩)

/-- Counterexample for C2 as stated: an explicit-CVMFS Stratum0 server
whose reachable discovery document lists a replica but also carries a
malformed version string; the scrape fails with ConversionError, not
ServerTypeMismatch, because metadata extraction runs before topology
validation in this mode. -/
theorem c2_counterexample :
    envBadVersion.reposJson = .ok rjBadVersion ∧
    srvOriginCvmfs.server_type = .Stratum0 ∧
    rjBadVersion.replicas ≠ [] ∧
    Server.scrape envBadVersion srvOriginCvmfs [] =
      .Failed { hostname := hostW
                server_type := .Stratum0
                backend_type := .CVMFS
                error := .ScrapeError (.ConversionError "unexpected character") } ∧
    ScrapedServer.failedWithServerTypeMismatch
      (Server.scrape envBadVersion srvOriginCvmfs []) = false := by
  refine ⟨rfl, by decide, by decide, by decide, by decide⟩

/-- Claim C3: under AutoDetect, a transport failure fetching the
discovery document is not an error: the scrape continues exactly as the
post-resolution pipeline with detected backend S3, no discovered names
and all-absent repo-json metadata; any other fetch/decode error class is
fatal and surfaces unchanged. -/
theorem c3_autodetect_fetch_failure (env : Env) (srv : Server)
    (supplied : List String) (e : ScrapeError)
    (hb : srv.backend_type = .AutoDetect) (he : env.reposJson = .error e) :
    (∀ m, e = .FetchError m →
      Server.scrape env srv supplied =
        scrapeRest env srv (btset supplied) .S3 MetadataFromRepoJSON.empty ∧
      ∀ p, Server.scrape env srv supplied = .Populated p →
        p.backend_detected = .S3 ∧
        p.repositories.map PopulatedRepositoryOrReplica.name = btset supplied ∧
        p.metadata.schema_version = none ∧ p.metadata.cvmfs_version = none ∧
        p.metadata.last_geodb_update = none ∧ p.metadata.os_version_id = none ∧
        p.metadata.os_pretty_name = none ∧ p.metadata.os_id = none) ∧
    ((∀ m, e ≠ .FetchError m) →
      Server.scrape env srv supplied = .Failed (srv.as_failed_server (.ScrapeError e))) := by
  constructor
  · intro m hm
    subst hm
    have hres := resolveBackend_autodetect_fetchError env srv (btset supplied) m hb he
    constructor
    · exact scrape_resolve_ok env srv supplied _ _ _ hres
    · intro p hp
      obtain ⟨repos, bd, meta, ps, hres2, hall, hpe⟩ :=
        scrape_populated_inv env srv supplied p hp
      rw [hres] at hres2
      have h1 : btset supplied = repos := congrArg (fun t => t.1) (Except.ok.inj hres2)
      have h2 : (ServerBackendType.S3 : ServerBackendType) = bd :=
        congrArg (fun t => t.2.1) (Except.ok.inj hres2)
      have h3 : MetadataFromRepoJSON.empty = meta :=
        congrArg (fun t => t.2.2) (Except.ok.inj hres2)
      subst hpe
      obtain ⟨m1, m2, m3, m4, m5, m6, -, -, -, -⟩ :=
        merge_metadata_spec srv meta (metaOpt env)
      refine ⟨h2.symm, ?_, ?_, ?_, ?_, ?_, ?_, ?_⟩
      · rw [scrapeAll_ok_names env srv repos ps hall, h1]
      · rw [m1, ← h3]; rfl
      · rw [m2, ← h3]; rfl
      · rw [m3, ← h3]; rfl
      · rw [m4, ← h3]; rfl
      · rw [m5, ← h3]; rfl
      · rw [m6, ← h3]; rfl
  · intro hne
    exact scrape_resolve_error env srv supplied _
      (resolveBackend_autodetect_otherError env srv (btset supplied) e hb he hne)

/-- Witness for C3: the concrete fetch-failure environment (first
branch) and, through a second application at the malformed-document
environment, the fatal branch. -/
theorem c3_witness :
    ((∀ m, (ScrapeError.FetchError "connection refused") = .FetchError m →
      Server.scrape envFetchFail srvAuto1 ["b", "a", "b"] =
        scrapeRest envFetchFail srvAuto1 (btset ["b", "a", "b"]) .S3 MetadataFromRepoJSON.empty ∧
      ∀ p, Server.scrape envFetchFail srvAuto1 ["b", "a", "b"] = .Populated p →
        p.backend_detected = .S3 ∧
        p.repositories.map PopulatedRepositoryOrReplica.name = btset ["b", "a", "b"] ∧
        p.metadata.schema_version = none ∧ p.metadata.cvmfs_version = none ∧
        p.metadata.last_geodb_update = none ∧ p.metadata.os_version_id = none ∧
        p.metadata.os_pretty_name = none ∧ p.metadata.os_id = none) ∧
    ((∀ m, (ScrapeError.FetchError "connection refused") ≠ .FetchError m) →
      Server.scrape envFetchFail srvAuto1 ["b", "a", "b"] =
        .Failed (srvAuto1.as_failed_server
          (.ScrapeError (.FetchError "connection refused"))))) ∧
    ((∀ m, (ScrapeError.ParseError "expected value at line 1") = .FetchError m →
      Server.scrape envParseFailDoc srvAuto1 [] =
        scrapeRest envParseFailDoc srvAuto1 (btset []) .S3 MetadataFromRepoJSON.empty ∧
      ∀ p, Server.scrape envParseFailDoc srvAuto1 [] = .Populated p →
        p.backend_detected = .S3 ∧
        p.repositories.map PopulatedRepositoryOrReplica.name = btset [] ∧
        p.metadata.schema_version = none ∧ p.metadata.cvmfs_version = none ∧
        p.metadata.last_geodb_update = none ∧ p.metadata.os_version_id = none ∧
        p.metadata.os_pretty_name = none ∧ p.metadata.os_id = none) ∧
    ((∀ m, (ScrapeError.ParseError "expected value at line 1") ≠ .FetchError m) →
      Server.scrape envParseFailDoc srvAuto1 [] =
        .Failed (srvAuto1.as_failed_server
          (.ScrapeError (.ParseError "expected value at line 1"))))) :=
  ⟨c3_autodetect_fetch_failure envFetchFail srvAuto1 ["b", "a", "b"]
     (.FetchError "connection refused") rfl rfl,
   c3_autodetect_fetch_failure envParseFailDoc srvAuto1 []
     (.ParseError "expected value at line 1") rfl rfl⟩

/-- Claim C4: the repository set of a Populated outcome is exactly the
deduplicated union by name of the supplied list and the names discovered
from the discovery document — each name once, independent of ordering
and duplication in the supplied list. -/
theorem c4_repository_set_union (env : Env) (srv : Server)
    (supplied : List String) (p : PopulatedServer)
    (hp : Server.scrape env srv supplied = .Populated p) :
    (p.repositories.map PopulatedRepositoryOrReplica.name).Nodup ∧
    (∀ a, a ∈ p.repositories.map PopulatedRepositoryOrReplica.name ↔
      a ∈ supplied ∨ a ∈ discoveredNames env srv) ∧
    ∀ supplied₂, (∀ a, a ∈ supplied₂ ↔ a ∈ supplied) →
      Server.scrape env srv supplied₂ = .Populated p := by
  obtain ⟨repos, bd, meta, ps, hres, hall, hpe⟩ :=
    scrape_populated_inv env srv supplied p hp
  obtain ⟨-, hmem, hsort⟩ := resolveBackend_ok_inv env srv _ repos bd meta hres
  have hnames : ps.map PopulatedRepositoryOrReplica.name = repos :=
    scrapeAll_ok_names env srv repos ps hall
  have hsorted : SortedStr repos := hsort (sorted_btset supplied)
  subst hpe
  refine ⟨?_, ?_, ?_⟩
  · rw [hnames]
    exact nodup_of_sortedStr hsorted
  · intro a
    rw [hnames, hmem a, mem_btset]
  · intro supplied₂ hs2
    have hbt : btset supplied₂ = btset supplied :=
      sortedStr_eq_of_mem_iff (sorted_btset supplied₂) (sorted_btset supplied)
        (fun a => by rw [mem_btset, mem_btset]; exact hs2 a)
    rw [scrape_resolve_ok env srv supplied₂ repos bd meta (by rw [hbt]; exact hres)]
    unfold scrapeRest
    rw [hall]

/-- Witness for C4: supplied names b, a, b (duplicated, unordered) and a
discovery document contributing b and c yield the set a, b, c. -/
theorem c4_witness :
    Server.scrape envDocOk srvAuto1 ["b", "a", "b"] = .Populated pDocOk ∧
    ((pDocOk.repositories.map PopulatedRepositoryOrReplica.name).Nodup ∧
    (∀ a, a ∈ pDocOk.repositories.map PopulatedRepositoryOrReplica.name ↔
      a ∈ ["b", "a", "b"] ∨ a ∈ discoveredNames envDocOk srvAuto1) ∧
    ∀ supplied₂, (∀ a, a ∈ supplied₂ ↔ a ∈ ["b", "a", "b"]) →
      Server.scrape envDocOk srvAuto1 supplied₂ = .Populated pDocOk) :=
  ⟨by decide,
   c4_repository_set_union envDocOk srvAuto1 ["b", "a", "b"] pDocOk (by decide)⟩

/-- Claim C6: once the backend is resolved, a failure fetching the
status document or manifest of any repository in the reconciled set
makes the whole scrape Failed, carrying the first failing repository's
error; the Failed outcome means no partial repository list is returned. -/
theorem c6_first_repo_failure_fails_scrape (env : Env) (srv : Server)
    (supplied : List String) (repos : List String)
    (bd : ServerBackendType) (meta : MetadataFromRepoJSON)
    (e : CVMFSScraperError)
    (hres : resolveBackend env srv (btset supplied) = .ok (repos, bd, meta))
    (hfail : firstFailing env srv repos = some e) :
    Server.scrape env srv supplied = .Failed (srv.as_failed_server e) := by
  rw [scrape_resolve_ok env srv supplied repos bd meta hres]
  unfold scrapeRest
  rw [scrapeAll_error_of_firstFailing env srv repos e hfail]

/-- Witness for C6: repository r2's manifest fetch 404s; the scrape of
an explicit-S3 server supplied with r1 and r2 fails with that error. -/
theorem c6_witness :
    Server.scrape envManifest404 srvS3 ["r1", "r2"] =
      .Failed (srvS3.as_failed_server
        (.ManifestError (.FetchError "HTTP status client error 404"))) :=
  c6_first_repo_failure_fails_scrape envManifest404 srvS3 ["r1", "r2"]
    ["r1", "r2"] .S3 MetadataFromRepoJSON.empty
    (.ManifestError (.FetchError "HTTP status client error 404"))
    rfl (by decide)

/-- Claim C7: with explicit S3 backend, an empty supplied repository
list (after deduplication) fails with EmptyRepositoryList; and the
outcome never depends on the discovery document or the version parser —
no discovery-document fetch happens in this mode. -/
theorem c7_explicit_s3 (env env₂ : Env) (srv : Server) (supplied : List String)
    (hb : srv.backend_type = .S3)
    (hmeta : env₂.metaJson = env.metaJson)
    (hstatus : env₂.status = env.status)
    (hmanifest : env₂.manifest = env.manifest) :
    (btset supplied = [] →
      Server.scrape env srv supplied =
        .Failed (srv.as_failed_server
          (.ScrapeError (.EmptyRepositoryList srv.hostname.val)))) ∧
    Server.scrape env₂ srv supplied = Server.scrape env srv supplied := by
  constructor
  · intro hempty
    apply scrape_resolve_error
    rw [resolveBackend_s3 env srv _ hb, hempty]
    rfl
  · by_cases hemp : (btset supplied).isEmpty
    · rw [scrape_resolve_error env₂ srv supplied _
            (by rw [resolveBackend_s3 env₂ srv _ hb, if_pos hemp]),
          scrape_resolve_error env srv supplied _
            (by rw [resolveBackend_s3 env srv _ hb, if_pos hemp])]
    · rw [scrape_resolve_ok env₂ srv supplied _ _ _
            (by rw [resolveBackend_s3 env₂ srv _ hb, if_neg hemp]),
          scrape_resolve_ok env srv supplied _ _ _
            (by rw [resolveBackend_s3 env srv _ hb, if_neg hemp])]
      exact scrapeRest_congr env env₂ srv _ _ _ hmeta hstatus hmanifest

/-- Witness for C7: the S3 server fails on an empty list, and two
environments differing only in discovery document and version parser
produce identical outcomes. -/
theorem c7_witness :
    (btset [] = [] →
      Server.scrape envS3Meta srvS3 [] =
        .Failed (srvS3.as_failed_server
          (.ScrapeError (.EmptyRepositoryList srvS3.hostname.val)))) ∧
    Server.scrape envS3MetaAltDoc srvS3 [] = Server.scrape envS3Meta srvS3 [] :=
  c7_explicit_s3 envS3Meta envS3MetaAltDoc srvS3 [] rfl rfl rfl rfl

/-- Claim C8 (amended): in a Populated outcome with detected backend S3
the six protocol/OS metadata fields are all unset, but the four
ownership fields are not necessarily unset: the meta.json document is
still fetched in this mode, and when it is reachable its four fields
populate the record (they are absent exactly when meta.json was not
obtained). -/
theorem c8_s3_populated_metadata (env : Env) (srv : Server)
    (supplied : List String) (p : PopulatedServer)
    (hp : Server.scrape env srv supplied = .Populated p)
    (hbd : p.backend_detected = .S3) :
    p.metadata.schema_version = none ∧ p.metadata.cvmfs_version = none ∧
    p.metadata.last_geodb_update = none ∧ p.metadata.os_version_id = none ∧
    p.metadata.os_pretty_name = none ∧ p.metadata.os_id = none ∧
    p.metadata.administrator = (metaOpt env).map MetaJSON.administrator ∧
    p.metadata.email = (metaOpt env).map MetaJSON.email ∧
    p.metadata.organisation = (metaOpt env).map MetaJSON.organisation ∧
    p.metadata.custom = (metaOpt env).map MetaJSON.custom := by
  obtain ⟨repos, bd, meta, ps, hres, hall, hpe⟩ :=
    scrape_populated_inv env srv supplied p hp
  subst hpe
  have hbd2 : bd = .S3 := hbd
  subst hbd2
  have hmeta : meta = MetadataFromRepoJSON.empty :=
    resolveBackend_ok_s3_meta env srv _ repos meta hres
  subst hmeta
  exact merge_metadata_spec srv MetadataFromRepoJSON.empty (metaOpt env)

/-- Witness for C8 (amended): an explicit-S3 scrape with a reachable
meta.json ends Populated with the six protocol/OS fields unset and the
ownership fields populated from meta.json. -/
theorem c8_witness :
    Server.scrape envS3Meta srvS3 ["r1"] = .Populated pS3Meta ∧
    (pS3Meta.metadata.schema_version = none ∧ pS3Meta.metadata.cvmfs_version = none ∧
    pS3Meta.metadata.last_geodb_update = none ∧ pS3Meta.metadata.os_version_id = none ∧
    pS3Meta.metadata.os_pretty_name = none ∧ pS3Meta.metadata.os_id = none ∧
    pS3Meta.metadata.administrator = (metaOpt envS3Meta).map MetaJSON.administrator ∧
    pS3Meta.metadata.email = (metaOpt envS3Meta).map MetaJSON.email ∧
    pS3Meta.metadata.organisation = (metaOpt envS3Meta).map MetaJSON.organisation ∧
    pS3Meta.metadata.custom = (metaOpt envS3Meta).map MetaJSON.custom) :=
  ⟨by decide,
   c8_s3_populated_metadata envS3Meta srvS3 ["r1"] pS3Meta (by decide) (by decide)⟩

/-- Counterexample for C8 as stated: an explicit-S3 server whose
meta.json is reachable ends Populated with detected backend S3 yet a
set administrator field — the metadata record is not empty. -/
theorem c8_counterexample :
    Server.scrape envS3Meta srvS3 ["r1"] = .Populated pS3Meta ∧
    pS3Meta.backend_detected = .S3 ∧
    pS3Meta.metadata.administrator = some "Alice" ∧
    pS3Meta.metadata.administrator ≠ none := by
  refine ⟨by decide, by decide, by decide, by decide⟩

/-- Claim C9: once the backend is resolved and every repository scrape
succeeds, a failure fetching meta.json never fails the scrape — the
outcome is still Populated, with the four ownership fields absent. -/
theorem c9_meta_json_failure_tolerated (env : Env) (srv : Server)
    (supplied : List String) (repos : List String)
    (bd : ServerBackendType) (meta : MetadataFromRepoJSON) (e : ScrapeError)
    (hres : resolveBackend env srv (btset supplied) = .ok (repos, bd, meta))
    (hok : firstFailing env srv repos = none)
    (hme : env.metaJson = .error e) :
    ∃ p, Server.scrape env srv supplied = .Populated p ∧
      p.metadata.administrator = none ∧ p.metadata.email = none ∧
      p.metadata.organisation = none ∧ p.metadata.custom = none := by
  obtain ⟨ps, hps⟩ := scrapeAll_ok_of_firstFailing_none env srv repos hok
  have hm : metaOpt env = none := by unfold metaOpt; rw [hme]
  refine ⟨{ server_type := srv.server_type
            backend_type := srv.backend_type
            backend_detected := bd
            hostname := srv.hostname
            repositories := ps
            metadata := srv.merge_metadata meta (metaOpt env) },
          ?_, ?_, ?_, ?_, ?_⟩
  · rw [scrape_resolve_ok env srv supplied repos bd meta hres]
    unfold scrapeRest
    rw [hps]
  · show (srv.merge_metadata meta (metaOpt env)).administrator = none
    rw [hm]
    simp [Server.merge_metadata, ServerMetadata.merge_repo_metadata]
  · show (srv.merge_metadata meta (metaOpt env)).email = none
    rw [hm]
    simp [Server.merge_metadata, ServerMetadata.merge_repo_metadata]
  · show (srv.merge_metadata meta (metaOpt env)).organisation = none
    rw [hm]
    simp [Server.merge_metadata, ServerMetadata.merge_repo_metadata]
  · show (srv.merge_metadata meta (metaOpt env)).custom = none
    rw [hm]
    simp [Server.merge_metadata, ServerMetadata.merge_repo_metadata]

/-- Witness for C9: an auto-detect scrape whose meta.json fetch fails
transport-wise still ends Populated with empty ownership fields. -/
theorem c9_witness :
    ∃ p, Server.scrape envFetchFail srvAuto1 ["a"] = .Populated p ∧
      p.metadata.administrator = none ∧ p.metadata.email = none ∧
      p.metadata.organisation = none ∧ p.metadata.custom = none :=
  c9_meta_json_failure_tolerated envFetchFail srvAuto1 ["a"] ["a"] .S3
    MetadataFromRepoJSON.empty (.FetchError "connection refused")
    rfl (by decide) rfl
